import Mathlib

/-!
Shallow embedding of the simulation core of
`src/src/austin_heller_repo/game_render_engine.py` (AustinHellerRepo/GameRenderEngine).

Modelling conventions:
* Python floats are modelled as rationals (`ℚ`), so arithmetic is exact; the
  spec's closed-form claims are about the exact arithmetic the code performs.
* Python `datetime` values are modelled as rationals (seconds on a global
  timeline); the code only compares them (`start_datetime <= utc_now`) and feeds
  them to the external `DateTimeDeltaCalculator`.
* Python lists holding three floats (`position`, `rotation`, tuples of three
  deltas) are modelled as `Vec3`: in the source every such list has length 3
  (`vector_length = len(vector)` is always 3 for the vectors the program builds).
* Fallible code (an `IndexError` from `get_cached_factorial`, a `KeyError` from
  a dictionary lookup, `NotImplementedError`) is modelled with `Option`/`Except`
  or an explicit error component.
* Python `set`s are modelled as lists without duplicates; `set.add` inserts only
  when absent, `set.remove` on a present element is `List.erase`.
-/

namespace GameRenderEngine

/-- A 3-component vector, standing for the length-3 Python lists / 3-tuples the
source uses for positions and rotations. -/
structure Vec3 where
  x : ℚ
  y : ℚ
  z : ℚ
deriving DecidableEq, Repr

def Vec3.add (a b : Vec3) : Vec3 := ⟨a.x + b.x, a.y + b.y, a.z + b.z⟩

/-- The module-level `__cached_factorials` table (12 entries, indices 0..11). -/
def cached_factorials : List ℕ :=
  [1, 1, 2, 6, 24, 120, 720, 5040, 40320, 362880, 3628800, 39916800]

/-- Embeds `get_cached_factorial(index)`; indexing past the table raises `IndexError`
in Python, modelled as `none`. -/
def get_cached_factorial (index : ℕ) : Option ℕ :=
  cached_factorials.get? index

/-- Embeds `EventTypeEnum`. -/
inductive EventTypeEnum where
  | Collision
  | CurveCompleted
  | Key
  | MouseMoved
deriving DecidableEq, Repr, Fintype

/-- Embeds `Curve`: immutable declaration of a time-bounded polynomial motion. -/
structure Curve where
  curve_uuid : String
  position_deltas : List Vec3
  rotation_deltas : List Vec3
  scale_deltas : List ℚ
  opacity_deltas : List ℚ
  effective_time_seconds : ℚ
  is_controller_event_triggered_on_completed : Bool
  start_datetime : ℚ
  is_instance_removed_on_curve_completed : Bool
  restart_after_seconds : Option ℚ
deriving DecidableEq, Repr

/-- The loop of `Curve.__try_update_vector`: walks the delta list keeping the
running term index (the enumerate counter), `current_time_delta` (the running
power of `time_delta`), the scratch accumulator `vector` and the default
accumulator `default_vector`.  `is_default_vector_update_needed` is decided
before the loop and threaded through unchanged.  A factorial-table miss
(`IndexError`) yields `none`. -/
def try_update_vector_loop (time_delta : ℚ) (is_default_update : Bool) :
    List Vec3 → ℕ → ℚ → Vec3 → Vec3 → Option (Vec3 × Vec3)
  | [], _, _, vector, default_vector => some (vector, default_vector)
  | vector_delta :: rest, index, current_time_delta, vector, default_vector =>
    match get_cached_factorial index with
    | none => none
    | some factorial =>
      let current : Vec3 :=
        ⟨vector_delta.x * current_time_delta / (factorial : ℚ),
         vector_delta.y * current_time_delta / (factorial : ℚ),
         vector_delta.z * current_time_delta / (factorial : ℚ)⟩
      let vector' := vector.add current
      let default' := if is_default_update then default_vector.add current else default_vector
      try_update_vector_loop time_delta is_default_update rest (index + 1)
        (current_time_delta * time_delta) vector' default'

/-- Embeds `Curve.__try_update_vector`: returns the updated scratch vector, the updated
default vector and the completion flag `time_delta == effective_time_seconds`. -/
def try_update_vector (effective_time_seconds : ℚ) (time_delta : ℚ)
    (vector default_vector : Vec3) (vector_deltas : List Vec3) :
    Option (Vec3 × Vec3 × Bool) :=
  let is_default_update := decide (time_delta = effective_time_seconds)
  (try_update_vector_loop time_delta is_default_update vector_deltas 0 1
      vector default_vector).map
    (fun p => (p.1, p.2, is_default_update))

/-- The loop of `Curve.__try_update_float_reference` (scalar form of the vector
loop); `FloatReference` cells are modelled by their rational contents. -/
def try_update_float_loop (time_delta : ℚ) (is_default_update : Bool) :
    List ℚ → ℕ → ℚ → ℚ → ℚ → Option (ℚ × ℚ)
  | [], _, _, value, default_value => some (value, default_value)
  | d :: rest, index, current_time_delta, value, default_value =>
    match get_cached_factorial index with
    | none => none
    | some factorial =>
      let current : ℚ := d * current_time_delta / (factorial : ℚ)
      let value' := value + current
      let default' := if is_default_update then default_value + current else default_value
      try_update_float_loop time_delta is_default_update rest (index + 1)
        (current_time_delta * time_delta) value' default'

/-- Embeds `Curve.__try_update_float_reference`. -/
def try_update_float_reference (effective_time_seconds : ℚ) (time_delta : ℚ)
    (value default_value : ℚ) (deltas : List ℚ) : Option (ℚ × ℚ × Bool) :=
  let is_default_update := decide (time_delta = effective_time_seconds)
  (try_update_float_loop time_delta is_default_update deltas 0 1
      value default_value).map
    (fun p => (p.1, p.2, is_default_update))

/-- Embeds `Curve.try_update_position`. -/
def Curve.try_update_position (c : Curve) (time_delta : ℚ)
    (position default_position : Vec3) : Option (Vec3 × Vec3 × Bool) :=
  try_update_vector c.effective_time_seconds time_delta position default_position
    c.position_deltas

/-- Embeds `Curve.try_update_rotation`. -/
def Curve.try_update_rotation (c : Curve) (time_delta : ℚ)
    (rotation default_rotation : Vec3) : Option (Vec3 × Vec3 × Bool) :=
  try_update_vector c.effective_time_seconds time_delta rotation default_rotation
    c.rotation_deltas

/-- Embeds `Curve.try_update_scale`. -/
def Curve.try_update_scale (c : Curve) (time_delta : ℚ)
    (scale default_scale : ℚ) : Option (ℚ × ℚ × Bool) :=
  try_update_float_reference c.effective_time_seconds time_delta scale default_scale
    c.scale_deltas

/-- Embeds `Curve.try_update_opacity`. -/
def Curve.try_update_opacity (c : Curve) (time_delta : ℚ)
    (opacity default_opacity : ℚ) : Option (ℚ × ℚ × Bool) :=
  try_update_float_reference c.effective_time_seconds time_delta opacity default_opacity
    c.opacity_deltas

/-- The closed-form Taylor-style sum `Σ_{k<n} coeffs[k] * t^k / k!` the spec
states for a scalar channel with coefficient list `coeffs`. -/
def taylor_sum (coeffs : List ℚ) (t : ℚ) : ℚ :=
  ∑ k ∈ Finset.range coeffs.length, coeffs.getD k 0 * t ^ k / (Nat.factorial k : ℚ)

/-- Generalisation of `taylor_sum` to a loop entered at term index `k0` with the
running power of `t` already equal to `ct`. -/
def partial_sum (coeffs : List ℚ) (k0 : ℕ) (ct t : ℚ) : ℚ :=
  ∑ j ∈ Finset.range coeffs.length,
    coeffs.getD j 0 * (ct * t ^ j) / (Nat.factorial (k0 + j) : ℚ)

lemma taylor_sum_eq_partial_sum (coeffs : List ℚ) (t : ℚ) :
    taylor_sum coeffs t = partial_sum coeffs 0 1 t := by
  unfold taylor_sum partial_sum
  exact Finset.sum_congr rfl (fun j _ => by rw [one_mul, Nat.zero_add])

lemma partial_sum_nil (k0 : ℕ) (ct t : ℚ) : partial_sum [] k0 ct t = 0 := by
  simp [partial_sum]

lemma partial_sum_cons (c0 : ℚ) (cs : List ℚ) (k0 : ℕ) (ct t : ℚ) :
    partial_sum (c0 :: cs) k0 ct t
      = c0 * ct / (Nat.factorial k0 : ℚ) + partial_sum cs (k0 + 1) (ct * t) t := by
  unfold partial_sum
  rw [List.length_cons, Finset.sum_range_succ']
  simp only [List.getD_cons_succ, List.getD_cons_zero, pow_zero, mul_one, Nat.add_zero]
  rw [add_comm]
  congr 1
  apply Finset.sum_congr rfl
  intro j _
  have hidx : k0 + (j + 1) = k0 + 1 + j := by omega
  rw [hidx]
  ring_nf

lemma get_cached_factorial_eq : ∀ k < 12, get_cached_factorial k = some (Nat.factorial k) := by
  decide

/-- Closed form of the scalar evaluator loop: starting at term index `k0` with
running power `ct`, it adds `partial_sum` to the scratch accumulator, and adds
the same amount to the default accumulator exactly when `is_default_update`. -/
lemma try_update_float_loop_eq (t : ℚ) (isDef : Bool) (ds : List ℚ) :
    ∀ (k0 : ℕ) (ct a b : ℚ), k0 + ds.length ≤ 12 →
      try_update_float_loop t isDef ds k0 ct a b =
        some (a + partial_sum ds k0 ct t,
              if isDef then b + partial_sum ds k0 ct t else b) := by
  induction ds with
  | nil =>
    intro k0 ct a b _
    simp [try_update_float_loop, partial_sum_nil]
  | cons d rest ih =>
    intro k0 ct a b hk
    have hlen : k0 + (rest.length + 1) ≤ 12 := by simpa using hk
    have hfact : get_cached_factorial k0 = some (Nat.factorial k0) :=
      get_cached_factorial_eq k0 (by omega)
    rw [try_update_float_loop, hfact]
    dsimp only
    rw [ih (k0 + 1) (ct * t) _ _ (by omega)]
    rw [partial_sum_cons]
    cases isDef with
    | false => simp [add_assoc]
    | true => simp [add_assoc]

/-- Closed form of the vector evaluator loop: componentwise version of
`try_update_float_loop_eq`. -/
lemma try_update_vector_loop_eq (t : ℚ) (isDef : Bool) (ds : List Vec3) :
    ∀ (k0 : ℕ) (ct : ℚ) (v d : Vec3), k0 + ds.length ≤ 12 →
      try_update_vector_loop t isDef ds k0 ct v d =
        some (⟨v.x + partial_sum (ds.map Vec3.x) k0 ct t,
               v.y + partial_sum (ds.map Vec3.y) k0 ct t,
               v.z + partial_sum (ds.map Vec3.z) k0 ct t⟩,
              if isDef then
                ⟨d.x + partial_sum (ds.map Vec3.x) k0 ct t,
                 d.y + partial_sum (ds.map Vec3.y) k0 ct t,
                 d.z + partial_sum (ds.map Vec3.z) k0 ct t⟩
              else d) := by
  induction ds with
  | nil =>
    intro k0 ct v d _
    simp [try_update_vector_loop, partial_sum_nil]
  | cons delta rest ih =>
    intro k0 ct v d hk
    have hlen : k0 + (rest.length + 1) ≤ 12 := by simpa using hk
    have hfact : get_cached_factorial k0 = some (Nat.factorial k0) :=
      get_cached_factorial_eq k0 (by omega)
    rw [try_update_vector_loop, hfact]
    dsimp only
    rw [ih (k0 + 1) (ct * t) _ _ (by omega)]
    simp only [List.map_cons, partial_sum_cons]
    cases isDef with
    | false => simp [Vec3.add, add_assoc]
    | true => simp [Vec3.add, add_assoc]

/-- Closed form of `Curve.__try_update_float_reference` for at most 12 terms. -/
lemma try_update_float_reference_eq (eff t a b : ℚ) (ds : List ℚ)
    (h : ds.length ≤ 12) :
    try_update_float_reference eff t a b ds =
      some (a + taylor_sum ds t,
            if t = eff then b + taylor_sum ds t else b,
            decide (t = eff)) := by
  unfold try_update_float_reference
  dsimp only
  rw [try_update_float_loop_eq t _ ds 0 1 a b (by omega)]
  rw [taylor_sum_eq_partial_sum]
  by_cases hte : t = eff <;> simp [hte]

/-- Closed form of `Curve.__try_update_vector` for at most 12 terms. -/
lemma try_update_vector_eq (eff t : ℚ) (v d : Vec3) (ds : List Vec3)
    (h : ds.length ≤ 12) :
    try_update_vector eff t v d ds =
      some (⟨v.x + taylor_sum (ds.map Vec3.x) t,
             v.y + taylor_sum (ds.map Vec3.y) t,
             v.z + taylor_sum (ds.map Vec3.z) t⟩,
            if t = eff then
              ⟨d.x + taylor_sum (ds.map Vec3.x) t,
               d.y + taylor_sum (ds.map Vec3.y) t,
               d.z + taylor_sum (ds.map Vec3.z) t⟩
            else d,
            decide (t = eff)) := by
  unfold try_update_vector
  dsimp only
  rw [try_update_vector_loop_eq t _ ds 0 1 v d (by simpa using h)]
  simp only [taylor_sum_eq_partial_sum]
  by_cases hte : t = eff <;> simp [hte]

/-- Variant-specific payload of the four `Instance` subclasses: `ModelInstance`
carries `model_uuid`, `TextInstance` carries `font_uuid` and `text`,
`ImageInstance` carries `image_uuid`, `CameraInstance` carries `client_uuid`. -/
inductive InstancePayload where
  | model (model_uuid : String)
  | text (font_uuid : String) (text : String)
  | image (image_uuid : String)
  | camera (client_uuid : String)
deriving DecidableEq, Repr

/-- Embeds `Instance` (the common base-class state plus the subclass payload). -/
structure Instance where
  instance_uuid : String
  payload : InstancePayload
  parallel_curves : List Curve
  client_event_types : List EventTypeEnum
  renderer_event_types : List EventTypeEnum
  owner_render_engine_uuid : String
  parent_instance_uuid : Option String
deriving DecidableEq, Repr

/-- Embeds `InstanceDelta` and its three subclasses as a tagged union; each
variant carries the base-class fields `instance_delta_uuid` and the target
`instance_uuid`. -/
inductive InstanceDelta where
  | appendParallelCurves (instance_delta_uuid : String) (instance_uuid : String)
      (parallel_curves : List Curve)
  | setParallelCurves (instance_delta_uuid : String) (instance_uuid : String)
      (parallel_curves : List Curve)
  | setText (instance_delta_uuid : String) (instance_uuid : String) (text : String)
deriving DecidableEq, Repr

/-- Accessor for `InstanceDelta.get_instance_uuid`. -/
def InstanceDelta.instance_uuid : InstanceDelta → String
  | .appendParallelCurves _ u _ => u
  | .setParallelCurves _ u _ => u
  | .setText _ u _ => u

/-- Errors the delta-application path can raise: a dictionary `KeyError`
(a Python `LookupError`) for an unknown instance uuid, and the
`NotImplementedError` raised by `SetTextInstanceDelta.apply_to_instance` on a
non-Text instance. -/
inductive EngineError where
  | lookupError (instance_uuid : String)
  | notImplementedError
deriving DecidableEq, Repr

/-- Embeds the three `apply_to_instance` overrides:
`AppendParallelCurvesInstanceDelta` appends to the curve list,
`SetParallelCurvesInstanceDelta` replaces it wholesale, and
`SetTextInstanceDelta` sets the text of a `TextInstance` and raises
`NotImplementedError` on any other variant. -/
def InstanceDelta.apply_to_instance : InstanceDelta → Instance → Except EngineError Instance
  | .appendParallelCurves _ _ curves, inst =>
    .ok { inst with parallel_curves := inst.parallel_curves ++ curves }
  | .setParallelCurves _ _ curves, inst =>
    .ok { inst with parallel_curves := curves }
  | .setText _ _ new_text, inst =>
    match inst.payload with
    | .text font_uuid _ => .ok { inst with payload := .text font_uuid new_text }
    | _ => .error .notImplementedError

/-- Lookup in an association-list model of a Python dict
(`self.__instance_per_instance_uuid[instance_uuid]`). -/
def alist_lookup {α : Type} (key : String) : List (String × α) → Option α
  | [] => none
  | (k, v) :: rest => if k = key then some v else alist_lookup key rest

/-- In-place replacement of the value stored under a key (the Python object held
by the dict is mutated in place; the dict keeps pointing at it). -/
def alist_set {α : Type} (key : String) (value : α) : List (String × α) → List (String × α)
  | [] => []
  | (k, v) :: rest => if k = key then (k, value) :: rest else (k, v) :: alist_set key value rest

/-- Deletion of a key (Python `del d[key]`). -/
def alist_del {α : Type} (key : String) : List (String × α) → List (String × α)
  | [] => []
  | (k, v) :: rest => if k = key then alist_del key rest else (k, v) :: alist_del key rest

/-- The body of one iteration of the `apply_instance_deltas` loop: look the
target instance up (a dict `KeyError` — i.e. a `LookupError` — if absent) and
apply the delta to it in place. -/
def apply_one_instance_delta (registry : List (String × Instance))
    (delta : InstanceDelta) : List (String × Instance) × Option EngineError :=
  match alist_lookup delta.instance_uuid registry with
  | none => (registry, some (.lookupError delta.instance_uuid))
  | some inst =>
    match delta.apply_to_instance inst with
    | .error e => (registry, some e)
    | .ok inst2 => (alist_set delta.instance_uuid inst2 registry, none)

/-- Embeds `RenderEngine.apply_instance_deltas`: walk the batch in order; an
exception aborts the walk.  The result is the registry as left behind when the
walk stops — Python deltas mutate instances in place, so the work done before
an exception is not rolled back — together with the raised error, if any. -/
def apply_instance_deltas (registry : List (String × Instance)) :
    List InstanceDelta → List (String × Instance) × Option EngineError
  | [] => (registry, none)
  | delta :: rest =>
    match apply_one_instance_delta registry delta with
    | (registry2, none) => apply_instance_deltas registry2 rest
    | (registry2, some e) => (registry2, some e)

lemma apply_one_instance_delta_missing (registry : List (String × Instance))
    (delta : InstanceDelta) (h : alist_lookup delta.instance_uuid registry = none) :
    apply_one_instance_delta registry delta =
      (registry, some (.lookupError delta.instance_uuid)) := by
  unfold apply_one_instance_delta
  rw [h]

lemma apply_one_instance_delta_error (registry : List (String × Instance))
    (delta : InstanceDelta) (inst : Instance) (e : EngineError)
    (hlk : alist_lookup delta.instance_uuid registry = some inst)
    (happ : delta.apply_to_instance inst = .error e) :
    apply_one_instance_delta registry delta = (registry, some e) := by
  unfold apply_one_instance_delta
  rw [hlk]
  dsimp only
  rw [happ]

/-- A JSON value, the target of the `to_json` methods. -/
inductive Json where
  | null
  | bool (b : Bool)
  | num (q : ℚ)
  | str (s : String)
  | arr (items : List Json)
  | obj (fields : List (String × Json))

/-- Field lookup in a JSON object (`json_dict["key"]`); `none` is a `KeyError`. -/
def Json.get_field (key : String) : Json → Option Json
  | .obj fields => alist_lookup key fields
  | _ => none

/-- String value of `InstanceDeltaTypeEnum` for each variant. -/
def InstanceDelta.instance_delta_type_value : InstanceDelta → String
  | .appendParallelCurves _ _ _ => "append_parallel_curves"
  | .setParallelCurves _ _ _ => "set_parallel_curves"
  | .setText _ _ _ => "set_text"

/-- Accessor for `InstanceDelta.get_instance_delta_uuid`. -/
def InstanceDelta.instance_delta_uuid : InstanceDelta → String
  | .appendParallelCurves u _ _ => u
  | .setParallelCurves u _ _ => u
  | .setText u _ _ => u

/-- Embeds `InstanceDelta.to_json`.  None of the three subclasses overrides
`to_json`, so every delta serializes only the three base-class fields: the
`parallel_curves` of the two curve deltas and the `text` of `SetText` are
dropped. -/
def InstanceDelta.to_json (d : InstanceDelta) : Json :=
  .obj [("instance_delta_uuid", .str d.instance_delta_uuid),
        ("instance_delta_type", .str d.instance_delta_type_value),
        ("instance_uuid", .str d.instance_uuid)]

/-- Embeds `InstanceDelta.parse_json`.  The dispatcher reads the type tag and
calls `<Subclass>.parse_json`; no subclass defines `parse_json`, so by
static-method inheritance each such call resolves back to this same dispatcher
with the same dictionary, recursing forever.  The fuel argument makes the
non-termination observable: no amount of fuel produces a value, modelling the
`RecursionError` the Python call raises.  An unknown tag raises (`none`). -/
def InstanceDelta.parse_json : ℕ → Json → Option InstanceDelta
  | 0, _ => none
  | fuel + 1, json_dict =>
    match json_dict.get_field "instance_delta_type" with
    | some (.str tag) =>
      if tag = "append_parallel_curves" ∨ tag = "set_parallel_curves" ∨ tag = "set_text" then
        InstanceDelta.parse_json fuel json_dict
      else
        none
    | _ => none

/-- Modelled from the spec: `DateTimeDeltaCalculator.get_calculated_time_delta`
lives in the external `austin_heller_repo.common` package, not under `src/`.
Spec §4.2 gives its contract: produce `0` if `now` is before `start_time`;
otherwise the elapsed time since `start_time`, clamped to not exceed
`effective_time_seconds` and landing exactly on `effective_time_seconds` once
the window has fully elapsed.  The raw frame `time_delta` is passed by the
caller but the contract determines the result from the other three inputs. -/
def get_calculated_time_delta (start_datetime effective_seconds now_datetime
    time_delta : ℚ) : ℚ :=
  if now_datetime < start_datetime then 0
  else if now_datetime - start_datetime ≤ effective_seconds then
    now_datetime - start_datetime
  else effective_seconds

/-- Insertion into a Python `set` modelled as a duplicate-free list. -/
def set_add {α : Type} [DecidableEq α] (a : α) (l : List α) : List α :=
  if a ∈ l then l else l ++ [a]

/-- Embeds `RenderedInstance`: the binding of one `Instance` to a backend node,
with the accumulator state and per-frame event buffers.  The backend
`node_path` handle is outside the simulation core and is not modelled.
`is_active_curve_completed_event` embeds the attribute of that name that
`update` assigns; the source never declares it in `__init__` and never reads
it anywhere. -/
structure RenderedInstance where
  inst : Instance
  initial_position : Vec3
  position : Vec3
  initial_rotation : Vec3
  rotation : Vec3
  initial_scale : ℚ
  scale : ℚ
  initial_opacity : ℚ
  opacity : ℚ
  to_remove_parallel_curves : List Curve
  completed_curve_uuids : List String
  is_active_curve_completed_event : Bool
  is_active_instance_removed_event : Bool
deriving DecidableEq, Repr

/-- Embeds `RenderedInstance.__init__` for a given instance: all accumulators
start at zero and the event buffers start empty. -/
def RenderedInstance.init (i : Instance) : RenderedInstance where
  inst := i
  initial_position := ⟨0, 0, 0⟩
  position := ⟨0, 0, 0⟩
  initial_rotation := ⟨0, 0, 0⟩
  rotation := ⟨0, 0, 0⟩
  initial_scale := 0
  scale := 0
  initial_opacity := 0
  opacity := 0
  to_remove_parallel_curves := []
  completed_curve_uuids := []
  is_active_curve_completed_event := false
  is_active_instance_removed_event := false

/-- Embeds `RenderedInstance.pop_completed_curve_uuids`: return the buffered
uuids and clear the buffer. -/
def RenderedInstance.pop_completed_curve_uuids (s : RenderedInstance) :
    List String × RenderedInstance :=
  (s.completed_curve_uuids, { s with completed_curve_uuids := [] })

/-- Embeds `RenderedInstance.pop_is_active_instance_removed_event`. -/
def RenderedInstance.pop_is_active_instance_removed_event (s : RenderedInstance) :
    Bool × RenderedInstance :=
  (s.is_active_instance_removed_event, { s with is_active_instance_removed_event := false })

/-- One iteration of the curve loop in `RenderedInstance.update`: skip a curve
that has not started; mark a zero-duration curve for removal without touching
any evaluator; otherwise, when the clamped elapsed time is positive, run all
four channel evaluators (only the position evaluator's completion flag is
consulted for removal).  An evaluator `IndexError` propagates as `none`. -/
def update_process_curve (time_delta utc_now : ℚ) (s : RenderedInstance)
    (c : Curve) : Option RenderedInstance :=
  if c.start_datetime ≤ utc_now then
    if c.effective_time_seconds = 0 then
      some { s with to_remove_parallel_curves := set_add c s.to_remove_parallel_curves }
    else
      let calculated_time_delta := get_calculated_time_delta c.start_datetime
        c.effective_time_seconds utc_now time_delta
      if 0 < calculated_time_delta then
        match c.try_update_position calculated_time_delta s.position s.initial_position with
        | none => none
        | some (position', initial_position', is_complete) =>
          match c.try_update_rotation calculated_time_delta s.rotation s.initial_rotation with
          | none => none
          | some (rotation', initial_rotation', _) =>
            match c.try_update_scale calculated_time_delta s.scale s.initial_scale with
            | none => none
            | some (scale', initial_scale', _) =>
              match c.try_update_opacity calculated_time_delta s.opacity s.initial_opacity with
              | none => none
              | some (opacity', initial_opacity', _) =>
                some { s with
                  position := position', initial_position := initial_position',
                  rotation := rotation', initial_rotation := initial_rotation',
                  scale := scale', initial_scale := initial_scale',
                  opacity := opacity', initial_opacity := initial_opacity',
                  to_remove_parallel_curves :=
                    if is_complete then set_add c s.to_remove_parallel_curves
                    else s.to_remove_parallel_curves }
      else some s
  else some s

/-- The body of the second (removal) pass of `RenderedInstance.update`: drop
the curve from the instance's list (Python `list.remove`, first occurrence) and
raise the two completion flags when the curve is configured for them.  The
`is_active_curve_completed_event` write is the source's assignment to an
attribute nothing ever reads; `completed_curve_uuids` is left untouched, as in
the source. -/
def commit_curve_removal (st : RenderedInstance) (c : Curve) : RenderedInstance :=
  let st1 := { st with
    inst := { st.inst with
      parallel_curves := st.inst.parallel_curves.erase c } }
  let st2 := if c.is_controller_event_triggered_on_completed then
      { st1 with is_active_curve_completed_event := true } else st1
  if c.is_instance_removed_on_curve_completed then
    { st2 with is_active_instance_removed_event := true } else st2

/-- The `for parallel_curve in self.__instance.get_parallel_curves()` loop of
`RenderedInstance.update`, walking the curve list with `update_process_curve`;
an evaluator `IndexError` aborts the walk. -/
def update_curves_loop (time_delta utc_now : ℚ) :
    RenderedInstance → List Curve → Option RenderedInstance
  | s, [] => some s
  | s, c :: rest =>
    match update_process_curve time_delta utc_now s c with
    | none => none
    | some s2 => update_curves_loop time_delta utc_now s2 rest

/-- Embeds `RenderedInstance.update`: reset the scratch position (and only the
position) from the default accumulator, process every curve of the instance's
current list, then — in a second pass, after iteration — commit the marked
removals and clear the staging set.  The single write of the resulting position
to the backend node is outside the model. -/
def RenderedInstance.update (s : RenderedInstance) (time_delta utc_now : ℚ) :
    Option RenderedInstance :=
  match update_curves_loop time_delta utc_now
      { s with position := s.initial_position } s.inst.parallel_curves with
  | none => none
  | some s1 =>
    if s1.to_remove_parallel_curves = [] then some s1
    else
      let s2 := s1.to_remove_parallel_curves.foldl commit_curve_removal s1
      some { s2 with to_remove_parallel_curves := [] }

/-- The event types an instance is indexed under: `client_event_types` when the
host is a client, `renderer_event_types` otherwise (used identically at
registration, line 1129, and at removal, line 989). -/
def subscribed_event_types (is_client : Bool) (inst : Instance) : List EventTypeEnum :=
  if is_client then inst.client_event_types else inst.renderer_event_types

/-- Embeds the mutable registry state of `RenderEngine` that the claims touch:
the instance registry, the rendered-instance registry, the reverse index from
event type to the subscribed rendered instances (a Python set of
`RenderedInstance` objects, modelled by their instance uuids — the binding is
1:1), the staged removal set, and the key set of
`on_event_callable_per_event_type`. -/
structure EngineState where
  is_client : Bool
  handler_event_types : List EventTypeEnum
  instance_per_instance_uuid : List (String × Instance)
  rendered_instance_per_instance_uuid : List (String × RenderedInstance)
  rendered_instances_per_event_type : EventTypeEnum → List String
  to_remove_rendered_instance : List RenderedInstance

/-- The `for event_type in ...: buckets[event_type].remove(render_instance)`
loop of the removal commit: walk the subscription list, erasing the instance
from the bucket of each event type in it. -/
def remove_from_buckets (instance_uuid : String)
    (buckets : EventTypeEnum → List String) (subs : List EventTypeEnum) :
    EventTypeEnum → List String :=
  subs.foldl
    (fun b event_type => fun et =>
      if et = event_type then (b et).erase instance_uuid else b et)
    buckets

/-- Embeds the per-instance body of the removal commit (lines 984-990): delete
the instance from both registries and remove it from the bucket of every event
type it is subscribed to. -/
def EngineState.remove_rendered_instance (st : EngineState)
    (render_instance : RenderedInstance) : EngineState :=
  let instance_uuid := render_instance.inst.instance_uuid
  { st with
    rendered_instance_per_instance_uuid :=
      alist_del instance_uuid st.rendered_instance_per_instance_uuid,
    instance_per_instance_uuid := alist_del instance_uuid st.instance_per_instance_uuid,
    rendered_instances_per_event_type :=
      remove_from_buckets instance_uuid st.rendered_instances_per_event_type
        (subscribed_event_types st.is_client render_instance.inst) }

/-- Embeds the removal-commit phase of `__render_instance_update_task`
(lines 983-991): if any instance was flagged, remove each and clear the staging
set. -/
def EngineState.commit_removals (st : EngineState) : EngineState :=
  if st.to_remove_rendered_instance = [] then st
  else
    let st1 := st.to_remove_rendered_instance.foldl
      EngineState.remove_rendered_instance st
    { st1 with to_remove_rendered_instance := [] }

/-- Per-instance body of the first phase of `__render_instance_update_task`:
update the rendered instance, drain its two event buffers, stage it for removal
when flagged.  In Python the `Instance` object is shared between the two
registries and the rendered instance, so the updated instance is written back
to both here. -/
def tick_update_one (task_time utc_now : ℚ) (acc : EngineState × List String)
    (entry : String × RenderedInstance) : Option (EngineState × List String) :=
  match entry.2.update (task_time + 1) utc_now with
  | none => none
  | some r1 =>
    let (completed, r2) := r1.pop_completed_curve_uuids
    let (is_removed, r3) := r2.pop_is_active_instance_removed_event
    let st := acc.1
    let st := { st with
      rendered_instance_per_instance_uuid :=
        alist_set entry.1 r3 st.rendered_instance_per_instance_uuid,
      instance_per_instance_uuid :=
        alist_set entry.1 r3.inst st.instance_per_instance_uuid }
    let st := if is_removed then
        { st with to_remove_rendered_instance :=
            set_add r3 st.to_remove_rendered_instance }
      else st
    some (st, acc.2 ++ completed)

/-- The `for render_instance in self.__rendered_instance_per_instance_uuid.values()`
loop of `__render_instance_update_task`. -/
def tick_instances_loop (task_time utc_now : ℚ) :
    EngineState × List String → List (String × RenderedInstance) →
      Option (EngineState × List String)
  | acc, [] => some acc
  | acc, entry :: rest =>
    match tick_update_one task_time utc_now acc entry with
    | none => none
    | some acc2 => tick_instances_loop task_time utc_now acc2 rest

/-- Embeds `RenderEngine.__render_instance_update_task` for one tick: update
every rendered instance collecting the frame-level completed-curve-uuid set and
the removal flags, commit removals, and — when a CurveCompleted handler is
registered and the set is non-empty — emit one `CurveCompletedEvent` per
completed curve uuid.  The returned list holds the `curve_uuid` of each emitted
event, in emission order. -/
def render_instance_update_task (st : EngineState) (task_time utc_now : ℚ) :
    Option (EngineState × List String) :=
  match tick_instances_loop task_time utc_now (st, ([] : List String))
      st.rendered_instance_per_instance_uuid with
  | none => none
  | some (st1, completed_curve_uuids) =>
    let st2 := st1.commit_removals
    let emitted :=
      if EventTypeEnum.CurveCompleted ∈ st2.handler_event_types then
        if completed_curve_uuids ≠ [] then completed_curve_uuids else []
      else []
    some (st2, emitted)

/-! Concrete sample values used by witness and counterexample theorems. -/

/-- A sample curve with one delta term per channel and a five-second window. -/
def sample_curve : Curve where
  curve_uuid := "curve-1"
  position_deltas := [⟨0, 5, -1⟩]
  rotation_deltas := [⟨1, 0, 0⟩]
  scale_deltas := [2]
  opacity_deltas := [1]
  effective_time_seconds := 5
  is_controller_event_triggered_on_completed := true
  start_datetime := 0
  is_instance_removed_on_curve_completed := false
  restart_after_seconds := none

/-- A sample curve with all four delta sequences empty. -/
def sample_empty_curve : Curve where
  curve_uuid := "curve-2"
  position_deltas := []
  rotation_deltas := []
  scale_deltas := []
  opacity_deltas := []
  effective_time_seconds := 5
  is_controller_event_triggered_on_completed := false
  start_datetime := 0
  is_instance_removed_on_curve_completed := false
  restart_after_seconds := none

/-- C2: for a curve with at most 12 delta terms per channel and elapsed time
`t > 0`, one evaluation of each channel adds exactly the closed-form sum
`Σ_{k<n} delta[k] * t^k / k!` to the channel's running (scratch) accumulator —
componentwise for position and rotation, scalar for scale and opacity. -/
theorem curve_evaluation_closed_form (c : Curve) (t : ℚ) (ht : 0 < t)
    (hp : c.position_deltas.length ≤ 12) (hr : c.rotation_deltas.length ≤ 12)
    (hs : c.scale_deltas.length ≤ 12) (ho : c.opacity_deltas.length ≤ 12)
    (position default_position rotation default_rotation : Vec3)
    (scale default_scale opacity default_opacity : ℚ) :
    (∃ out, c.try_update_position t position default_position = some out ∧
      out.1 = ⟨position.x + taylor_sum (c.position_deltas.map Vec3.x) t,
               position.y + taylor_sum (c.position_deltas.map Vec3.y) t,
               position.z + taylor_sum (c.position_deltas.map Vec3.z) t⟩) ∧
    (∃ out, c.try_update_rotation t rotation default_rotation = some out ∧
      out.1 = ⟨rotation.x + taylor_sum (c.rotation_deltas.map Vec3.x) t,
               rotation.y + taylor_sum (c.rotation_deltas.map Vec3.y) t,
               rotation.z + taylor_sum (c.rotation_deltas.map Vec3.z) t⟩) ∧
    (∃ out, c.try_update_scale t scale default_scale = some out ∧
      out.1 = scale + taylor_sum c.scale_deltas t) ∧
    (∃ out, c.try_update_opacity t opacity default_opacity = some out ∧
      out.1 = opacity + taylor_sum c.opacity_deltas t) := by
  refine ⟨⟨_, try_update_vector_eq _ t _ _ _ hp, rfl⟩,
          ⟨_, try_update_vector_eq _ t _ _ _ hr, rfl⟩,
          ⟨_, try_update_float_reference_eq _ t _ _ _ hs, rfl⟩,
          ⟨_, try_update_float_reference_eq _ t _ _ _ ho, rfl⟩⟩

/-- Witness for C2 at `sample_curve` and `t = 2`. -/
theorem curve_evaluation_closed_form_witness :
    (∃ out, sample_curve.try_update_position 2 ⟨1, 1, 1⟩ ⟨0, 0, 0⟩ = some out ∧
      out.1 = ⟨1 + taylor_sum (sample_curve.position_deltas.map Vec3.x) 2,
               1 + taylor_sum (sample_curve.position_deltas.map Vec3.y) 2,
               1 + taylor_sum (sample_curve.position_deltas.map Vec3.z) 2⟩) ∧
    (∃ out, sample_curve.try_update_rotation 2 ⟨0, 0, 0⟩ ⟨0, 0, 0⟩ = some out ∧
      out.1 = ⟨0 + taylor_sum (sample_curve.rotation_deltas.map Vec3.x) 2,
               0 + taylor_sum (sample_curve.rotation_deltas.map Vec3.y) 2,
               0 + taylor_sum (sample_curve.rotation_deltas.map Vec3.z) 2⟩) ∧
    (∃ out, sample_curve.try_update_scale 2 3 0 = some out ∧
      out.1 = 3 + taylor_sum sample_curve.scale_deltas 2) ∧
    (∃ out, sample_curve.try_update_opacity 2 0 0 = some out ∧
      out.1 = 0 + taylor_sum sample_curve.opacity_deltas 2) :=
  curve_evaluation_closed_form sample_curve 2 (by norm_num)
    (by decide) (by decide) (by decide) (by decide) ⟨1, 1, 1⟩ ⟨0, 0, 0⟩ ⟨0, 0, 0⟩ ⟨0, 0, 0⟩ 3 0 0 0

/-- C3: a channel evaluation (vector or scalar form) reports completion iff the
elapsed time equals `effective_time_seconds` exactly, and exactly in that case
the per-term contributions are also folded into the default (base) accumulator;
otherwise the default accumulator is untouched. -/
theorem completion_boundary_and_base_fold (eff t : ℚ) (v d : Vec3)
    (ds : List Vec3) (fs : List ℚ) (a b : ℚ)
    (hv : ds.length ≤ 12) (hf : fs.length ≤ 12) :
    (∃ out, try_update_vector eff t v d ds = some out ∧
      (out.2.2 = true ↔ t = eff) ∧
      (t = eff → out.2.1 = ⟨d.x + taylor_sum (ds.map Vec3.x) t,
                           d.y + taylor_sum (ds.map Vec3.y) t,
                           d.z + taylor_sum (ds.map Vec3.z) t⟩) ∧
      (t ≠ eff → out.2.1 = d)) ∧
    (∃ out, try_update_float_reference eff t a b fs = some out ∧
      (out.2.2 = true ↔ t = eff) ∧
      (t = eff → out.2.1 = b + taylor_sum fs t) ∧
      (t ≠ eff → out.2.1 = b)) := by
  constructor
  · refine ⟨_, try_update_vector_eq eff t v d ds hv, by simp, ?_, ?_⟩
    · intro hte; simp [hte]
    · intro hte; simp [hte]
  · refine ⟨_, try_update_float_reference_eq eff t a b fs hf, by simp, ?_, ?_⟩
    · intro hte; simp [hte]
    · intro hte; simp [hte]

/-- Witness for C3 at the completion boundary `t = eff = 5`. -/
theorem completion_boundary_and_base_fold_witness :
    (∃ out, try_update_vector 5 5 ⟨0, 0, 0⟩ ⟨1, 2, 3⟩ [⟨0, 5, -1⟩] = some out ∧
      (out.2.2 = true ↔ (5 : ℚ) = 5) ∧
      ((5 : ℚ) = 5 → out.2.1 = ⟨1 + taylor_sum ([Vec3.mk 0 5 (-1)].map Vec3.x) 5,
                                2 + taylor_sum ([Vec3.mk 0 5 (-1)].map Vec3.y) 5,
                                3 + taylor_sum ([Vec3.mk 0 5 (-1)].map Vec3.z) 5⟩) ∧
      ((5 : ℚ) ≠ 5 → out.2.1 = ⟨1, 2, 3⟩)) ∧
    (∃ out, try_update_float_reference 5 5 0 2 [1, 1] = some out ∧
      (out.2.2 = true ↔ (5 : ℚ) = 5) ∧
      ((5 : ℚ) = 5 → out.2.1 = 2 + taylor_sum [1, 1] 5) ∧
      ((5 : ℚ) ≠ 5 → out.2.1 = 2)) :=
  completion_boundary_and_base_fold 5 5 ⟨0, 0, 0⟩ ⟨1, 2, 3⟩ [⟨0, 5, -1⟩] [1, 1] 0 2
    (by decide) (by decide)

/-- C10: the completion flag returned by each of the four channel evaluations
depends only on whether the elapsed time equals `effective_time_seconds`, never
on the delta sequences; in particular a curve whose delta sequences are empty
leaves the accumulators unchanged yet still reports completion exactly when
`t = effective_time_seconds`. -/
theorem completion_flag_independent_of_deltas (c : Curve) (t : ℚ) (v d : Vec3)
    (a b : ℚ) :
    (∀ out, c.try_update_position t v d = some out →
      out.2.2 = decide (t = c.effective_time_seconds)) ∧
    (∀ out, c.try_update_rotation t v d = some out →
      out.2.2 = decide (t = c.effective_time_seconds)) ∧
    (∀ out, c.try_update_scale t a b = some out →
      out.2.2 = decide (t = c.effective_time_seconds)) ∧
    (∀ out, c.try_update_opacity t a b = some out →
      out.2.2 = decide (t = c.effective_time_seconds)) ∧
    (c.position_deltas = [] →
      c.try_update_position t v d = some (v, d, decide (t = c.effective_time_seconds))) ∧
    (c.rotation_deltas = [] →
      c.try_update_rotation t v d = some (v, d, decide (t = c.effective_time_seconds))) ∧
    (c.scale_deltas = [] →
      c.try_update_scale t a b = some (a, b, decide (t = c.effective_time_seconds))) ∧
    (c.opacity_deltas = [] →
      c.try_update_opacity t a b = some (a, b, decide (t = c.effective_time_seconds))) := by
  refine ⟨?_, ?_, ?_, ?_, ?_, ?_, ?_, ?_⟩
  · intro out h
    simp only [Curve.try_update_position, try_update_vector, Option.map_eq_some'] at h
    obtain ⟨p, -, rfl⟩ := h
    rfl
  · intro out h
    simp only [Curve.try_update_rotation, try_update_vector, Option.map_eq_some'] at h
    obtain ⟨p, -, rfl⟩ := h
    rfl
  · intro out h
    simp only [Curve.try_update_scale, try_update_float_reference, Option.map_eq_some'] at h
    obtain ⟨p, -, rfl⟩ := h
    rfl
  · intro out h
    simp only [Curve.try_update_opacity, try_update_float_reference, Option.map_eq_some'] at h
    obtain ⟨p, -, rfl⟩ := h
    rfl
  · intro hd
    simp [Curve.try_update_position, try_update_vector, hd, try_update_vector_loop]
  · intro hd
    simp [Curve.try_update_rotation, try_update_vector, hd, try_update_vector_loop]
  · intro hd
    simp [Curve.try_update_scale, try_update_float_reference, hd, try_update_float_loop]
  · intro hd
    simp [Curve.try_update_opacity, try_update_float_reference, hd, try_update_float_loop]

/-- Witness for C10 at `sample_empty_curve` and `t = 3` (window of 5 seconds):
nothing is accumulated, yet the completion flag is computed, and it is false
since `3 ≠ 5`. -/
theorem completion_flag_independent_of_deltas_witness :
    sample_empty_curve.try_update_position 3 ⟨1, 2, 3⟩ ⟨4, 5, 6⟩ =
      some (⟨1, 2, 3⟩, ⟨4, 5, 6⟩,
        decide ((3 : ℚ) = sample_empty_curve.effective_time_seconds)) :=
  (completion_flag_independent_of_deltas sample_empty_curve 3 ⟨1, 2, 3⟩ ⟨4, 5, 6⟩ 0 0).2.2.2.2.1 rfl

/-- A sample Model instance. -/
def sample_model_instance : Instance where
  instance_uuid := "instance-1"
  payload := .model "model-1"
  parallel_curves := []
  client_event_types := [.CurveCompleted]
  renderer_event_types := []
  owner_render_engine_uuid := "engine-1"
  parent_instance_uuid := none

/-- A sample Text instance. -/
def sample_text_instance : Instance where
  instance_uuid := "instance-2"
  payload := .text "font-1" "hello"
  parallel_curves := []
  client_event_types := []
  renderer_event_types := [.MouseMoved]
  owner_render_engine_uuid := "engine-1"
  parent_instance_uuid := none

/-- C6: when a batch of instance deltas contains a delta whose target uuid is
not in the instance registry, `apply_instance_deltas` raises `LookupError`
(a Python dict `KeyError`) at that delta, every delta before it in the batch
remains applied (the registry is left exactly as after the prefix; no
rollback), and no delta after it is processed — the result does not depend on
`post` at all. -/
theorem apply_instance_deltas_stops_at_missing
    (registry : List (String × Instance)) (pre : List InstanceDelta)
    (bad : InstanceDelta) (post : List InstanceDelta)
    (hok : (apply_instance_deltas registry pre).2 = none)
    (hmissing : alist_lookup bad.instance_uuid (apply_instance_deltas registry pre).1 = none) :
    apply_instance_deltas registry (pre ++ bad :: post) =
      ((apply_instance_deltas registry pre).1,
       some (EngineError.lookupError bad.instance_uuid)) := by
  induction pre generalizing registry with
  | nil =>
    simp only [apply_instance_deltas] at hmissing ⊢
    rw [apply_one_instance_delta_missing _ _ hmissing]
  | cons d rest ih =>
    rw [apply_instance_deltas] at hok hmissing
    rw [List.cons_append]
    have hstep : apply_instance_deltas registry (d :: (rest ++ bad :: post)) =
        match apply_one_instance_delta registry d with
        | (registry2, none) => apply_instance_deltas registry2 (rest ++ bad :: post)
        | (registry2, some e) => (registry2, some e) := rfl
    have hstep2 : apply_instance_deltas registry (d :: rest) =
        match apply_one_instance_delta registry d with
        | (registry2, none) => apply_instance_deltas registry2 rest
        | (registry2, some e) => (registry2, some e) := rfl
    rw [hstep, hstep2]
    cases h1 : apply_one_instance_delta registry d with
    | mk registry2 err =>
      rw [h1] at hok hmissing
      cases err with
      | some e => dsimp only at hok; exact absurd hok (by simp)
      | none =>
        dsimp only at hok hmissing ⊢
        exact ih _ hok hmissing

/-- Witness for C6: a two-delta batch whose second delta targets the unknown
uuid "missing"; the first delta (appending one curve to "instance-1") stays
applied and the batch stops with a LookupError. -/
theorem apply_instance_deltas_stops_at_missing_witness :
    apply_instance_deltas [("instance-1", sample_model_instance)]
        ([InstanceDelta.appendParallelCurves "delta-1" "instance-1" [sample_curve]] ++
          InstanceDelta.setParallelCurves "delta-2" "missing" [] ::
            [InstanceDelta.setText "delta-3" "instance-1" "later"]) =
      ((apply_instance_deltas [("instance-1", sample_model_instance)]
          [InstanceDelta.appendParallelCurves "delta-1" "instance-1" [sample_curve]]).1,
       some (EngineError.lookupError
         (InstanceDelta.setParallelCurves "delta-2" "missing" []).instance_uuid)) :=
  apply_instance_deltas_stops_at_missing [("instance-1", sample_model_instance)]
    [InstanceDelta.appendParallelCurves "delta-1" "instance-1" [sample_curve]]
    (InstanceDelta.setParallelCurves "delta-2" "missing" [])
    [InstanceDelta.setText "delta-3" "instance-1" "later"]
    (by decide) (by decide)

/-- C7: applying a SetText delta to a Text instance sets exactly the text field
and changes nothing else; applying it to any other variant raises
`NotImplementedError` — and threading that batch through
`apply_instance_deltas` leaves the registry unchanged, never a silent no-op. -/
theorem set_text_requires_text_variant (delta_uuid target_uuid new_text : String)
    (inst : Instance) (registry : List (String × Instance))
    (hlk : alist_lookup target_uuid registry = some inst) :
    (∀ font_uuid old_text, inst.payload = InstancePayload.text font_uuid old_text →
      (InstanceDelta.setText delta_uuid target_uuid new_text).apply_to_instance inst =
        Except.ok { inst with payload := InstancePayload.text font_uuid new_text }) ∧
    ((∀ font_uuid old_text, inst.payload ≠ InstancePayload.text font_uuid old_text) →
      (InstanceDelta.setText delta_uuid target_uuid new_text).apply_to_instance inst =
        Except.error EngineError.notImplementedError ∧
      apply_instance_deltas registry
          [InstanceDelta.setText delta_uuid target_uuid new_text] =
        (registry, some EngineError.notImplementedError)) := by
  constructor
  · intro font_uuid old_text hp
    simp [InstanceDelta.apply_to_instance, hp]
  · intro hnot
    have herr : (InstanceDelta.setText delta_uuid target_uuid new_text).apply_to_instance
        inst = Except.error EngineError.notImplementedError := by
      cases hp : inst.payload with
      | text font_uuid old_text => exact absurd hp (hnot font_uuid old_text)
      | model m => simp [InstanceDelta.apply_to_instance, hp]
      | image i => simp [InstanceDelta.apply_to_instance, hp]
      | camera cl => simp [InstanceDelta.apply_to_instance, hp]
    refine ⟨herr, ?_⟩
    rw [apply_instance_deltas,
      apply_one_instance_delta_error registry
        (InstanceDelta.setText delta_uuid target_uuid new_text) inst
        EngineError.notImplementedError hlk herr]

/-- Witness for C7: `sample_model_instance` (a Model, not Text) rejects
SetText and the one-element registry is unchanged. -/
theorem set_text_requires_text_variant_witness :
    (InstanceDelta.setText "delta-4" "instance-1" "new").apply_to_instance
        sample_model_instance = Except.error EngineError.notImplementedError ∧
    apply_instance_deltas [("instance-1", sample_model_instance)]
        [InstanceDelta.setText "delta-4" "instance-1" "new"] =
      ([("instance-1", sample_model_instance)],
       some EngineError.notImplementedError) :=
  (set_text_requires_text_variant "delta-4" "instance-1" "new"
      sample_model_instance [("instance-1", sample_model_instance)]
      (by decide)).2 (fun _ _ h => by simp [sample_model_instance] at h)

/-- Sample delta carrying one curve. -/
def sample_append_delta : InstanceDelta :=
  .appendParallelCurves "delta-1" "instance-1" [sample_curve]

/-- Sample delta identical to `sample_append_delta` except that it carries no
curves. -/
def sample_append_delta_no_curves : InstanceDelta :=
  .appendParallelCurves "delta-1" "instance-1" []

/-- C8 (failing part): the serialize-then-parse round trip cannot recover an
`InstanceDelta`.  Serialization drops the `parallel_curves` payload — two
different deltas share the same JSON — and `InstanceDelta.parse_json` on that
JSON never returns, for any recursion depth. -/
theorem instance_delta_round_trip_fails :
    sample_append_delta.to_json = sample_append_delta_no_curves.to_json ∧
    sample_append_delta ≠ sample_append_delta_no_curves ∧
    ∀ fuel, InstanceDelta.parse_json fuel sample_append_delta.to_json = none := by
  refine ⟨rfl, by decide, ?_⟩
  intro fuel
  induction fuel with
  | zero => rfl
  | succ n ih =>
    rw [InstanceDelta.parse_json]
    simp only [sample_append_delta, InstanceDelta.to_json, Json.get_field,
      InstanceDelta.instance_delta_type_value, alist_lookup]
    simp only [reduceIte]
    exact ih

/-- Witness for C8 at recursion depth 100. -/
theorem instance_delta_round_trip_fails_witness :
    InstanceDelta.parse_json 100 sample_append_delta.to_json = none :=
  instance_delta_round_trip_fails.2.2 100

/-- A zero-duration curve (`effective_time_seconds = 0`) that carries position
deltas and does not ask for instance removal on completion. -/
def sample_zero_curve : Curve where
  curve_uuid := "curve-z"
  position_deltas := [⟨1, 1, 1⟩]
  rotation_deltas := []
  scale_deltas := []
  opacity_deltas := []
  effective_time_seconds := 0
  is_controller_event_triggered_on_completed := false
  start_datetime := 0
  is_instance_removed_on_curve_completed := false
  restart_after_seconds := none

/-- An instance whose only curve is `sample_zero_curve`. -/
def sample_zero_instance : Instance where
  instance_uuid := "instance-z"
  payload := .model "model-1"
  parallel_curves := [sample_zero_curve]
  client_event_types := []
  renderer_event_types := []
  owner_render_engine_uuid := "engine-1"
  parent_instance_uuid := none

/-- C5 counterexample: an already-started zero-duration curve with
`is_instance_removed_on_curve_completed = false` is removed on the first update
and contributes nothing to the base accumulator, but the owning instance is
NOT flagged for removal — refuting the claim that immediate expiry always
flags the instance. -/
theorem zero_duration_curve_counterexample :
    ((RenderedInstance.init sample_zero_instance).update 1 1).map
        (fun r => (r.inst.parallel_curves, r.is_active_instance_removed_event,
                   r.initial_position)) =
      some ([], false, (⟨0, 0, 0⟩ : Vec3)) := by decide

/-- C5 amended: for an instance whose single curve has
`effective_time_seconds = 0` and has started, the first update removes the
curve from the active set without ever invoking the channel evaluators (the
update succeeds with every accumulator untouched, whatever the delta lists
hold), contributes nothing to the base accumulators, and flags the owning
instance for removal exactly when the curve's
`is_instance_removed_on_curve_completed` is set. -/
theorem zero_duration_curve_immediate_expiry (s : RenderedInstance) (c : Curve)
    (td now : ℚ)
    (hcurves : s.inst.parallel_curves = [c])
    (hzero : c.effective_time_seconds = 0)
    (hstart : c.start_datetime ≤ now)
    (hstage : s.to_remove_parallel_curves = []) :
    ∃ r, s.update td now = some r ∧
      r.inst.parallel_curves = [] ∧
      r.initial_position = s.initial_position ∧
      r.initial_rotation = s.initial_rotation ∧
      r.initial_scale = s.initial_scale ∧
      r.initial_opacity = s.initial_opacity ∧
      r.position = s.initial_position ∧
      r.rotation = s.rotation ∧
      r.scale = s.scale ∧
      r.opacity = s.opacity ∧
      r.is_active_instance_removed_event =
        (s.is_active_instance_removed_event ||
          c.is_instance_removed_on_curve_completed) := by
  have h1 : update_process_curve td now { s with position := s.initial_position } c =
      some { s with position := s.initial_position, to_remove_parallel_curves := [c] } := by
    unfold update_process_curve
    rw [if_pos hstart, hzero, if_pos (rfl : (0 : ℚ) = 0)]
    simp [hstage, set_add]
  have h2 : update_curves_loop td now { s with position := s.initial_position } [c] =
      some { s with position := s.initial_position, to_remove_parallel_curves := [c] } := by
    have e : update_curves_loop td now { s with position := s.initial_position } [c] =
        match update_process_curve td now { s with position := s.initial_position } c with
        | none => none
        | some s2 => update_curves_loop td now s2 [] := rfl
    rw [e, h1]
    rfl
  unfold RenderedInstance.update
  rw [hcurves, h2]
  dsimp only
  rw [if_neg (List.cons_ne_nil c [])]
  dsimp only [List.foldl]
  unfold commit_curve_removal
  dsimp only
  rw [hcurves, List.erase_cons_head]
  cases hb1 : c.is_controller_event_triggered_on_completed <;>
    cases hb2 : c.is_instance_removed_on_curve_completed <;>
      simp only [hb1, hb2, if_true, if_false, Bool.false_eq_true,
        Bool.true_eq_false, Bool.or_false, Bool.or_true, ite_true, ite_false] <;>
      exact ⟨_, rfl, by simp [hb2]⟩

/-- Witness for C5 (amended) at the concrete zero-duration curve. -/
theorem zero_duration_curve_immediate_expiry_witness :
    ∃ r, (RenderedInstance.init sample_zero_instance).update 1 1 = some r ∧
      r.inst.parallel_curves = [] ∧
      r.initial_position = (RenderedInstance.init sample_zero_instance).initial_position ∧
      r.initial_rotation = (RenderedInstance.init sample_zero_instance).initial_rotation ∧
      r.initial_scale = (RenderedInstance.init sample_zero_instance).initial_scale ∧
      r.initial_opacity = (RenderedInstance.init sample_zero_instance).initial_opacity ∧
      r.position = (RenderedInstance.init sample_zero_instance).initial_position ∧
      r.rotation = (RenderedInstance.init sample_zero_instance).rotation ∧
      r.scale = (RenderedInstance.init sample_zero_instance).scale ∧
      r.opacity = (RenderedInstance.init sample_zero_instance).opacity ∧
      r.is_active_instance_removed_event =
        ((RenderedInstance.init sample_zero_instance).is_active_instance_removed_event ||
          sample_zero_curve.is_instance_removed_on_curve_completed) :=
  zero_duration_curve_immediate_expiry (RenderedInstance.init sample_zero_instance)
    sample_zero_curve 1 1 (by decide) (by decide) (by decide) (by decide)

lemma Vec3.add_right_comm (a b d : Vec3) : (a.add b).add d = (a.add d).add b := by
  simp only [Vec3.add, Vec3.mk.injEq]
  refine ⟨by ring, by ring, by ring⟩

/-- Translating the scratch accumulator fed to the vector loop translates the
returned scratch accumulator by the same amount, touching nothing else: the
per-term contributions do not read the accumulator. -/
lemma try_update_vector_loop_shift (t : ℚ) (isDef : Bool) (ds : List Vec3) :
    ∀ (k : ℕ) (ct : ℚ) (v d csh : Vec3),
      try_update_vector_loop t isDef ds k ct (v.add csh) d =
        (try_update_vector_loop t isDef ds k ct v d).map (fun p => (p.1.add csh, p.2)) := by
  induction ds with
  | nil => intro k ct v d csh; simp [try_update_vector_loop]
  | cons delta rest ih =>
    intro k ct v d csh
    rw [try_update_vector_loop, try_update_vector_loop]
    cases get_cached_factorial k with
    | none => rfl
    | some factorial =>
      dsimp only
      rw [Vec3.add_right_comm, ih]

/-- Scalar form of `try_update_vector_loop_shift`. -/
lemma try_update_float_loop_shift (t : ℚ) (isDef : Bool) (ds : List ℚ) :
    ∀ (k : ℕ) (ct a b q : ℚ),
      try_update_float_loop t isDef ds k ct (a + q) b =
        (try_update_float_loop t isDef ds k ct a b).map (fun p => (p.1 + q, p.2)) := by
  induction ds with
  | nil => intro k ct a b q; simp [try_update_float_loop]
  | cons d0 rest ih =>
    intro k ct a b q
    rw [try_update_float_loop, try_update_float_loop]
    cases get_cached_factorial k with
    | none => rfl
    | some factorial =>
      dsimp only
      rw [add_right_comm, ih]

lemma try_update_vector_shift (eff t : ℚ) (v d csh : Vec3) (ds : List Vec3) :
    try_update_vector eff t (v.add csh) d ds =
      (try_update_vector eff t v d ds).map (fun out => (out.1.add csh, out.2)) := by
  unfold try_update_vector
  dsimp only
  rw [try_update_vector_loop_shift, Option.map_map, Option.map_map]
  rfl

lemma try_update_float_reference_shift (eff t a b q : ℚ) (ds : List ℚ) :
    try_update_float_reference eff t (a + q) b ds =
      (try_update_float_reference eff t a b ds).map (fun out => (out.1 + q, out.2)) := by
  unfold try_update_float_reference
  dsimp only
  rw [try_update_float_loop_shift, Option.map_map, Option.map_map]
  rfl

/-- Offsetting the rotation, scale and opacity scratch accumulators of a
rendered instance (the three accumulators `update` does not reset). -/
def shift_scratch (csh : Vec3) (q1 q2 : ℚ) (u : RenderedInstance) : RenderedInstance :=
  { u with rotation := u.rotation.add csh, scale := u.scale + q1,
           opacity := u.opacity + q2 }

lemma Curve.try_update_rotation_shift (c : Curve) (t : ℚ) (rot defrot csh : Vec3) :
    c.try_update_rotation t (rot.add csh) defrot =
      (c.try_update_rotation t rot defrot).map (fun out => (out.1.add csh, out.2)) :=
  try_update_vector_shift c.effective_time_seconds t rot defrot csh c.rotation_deltas

lemma Curve.try_update_scale_shift (c : Curve) (t sc dsc q : ℚ) :
    c.try_update_scale t (sc + q) dsc =
      (c.try_update_scale t sc dsc).map (fun out => (out.1 + q, out.2)) :=
  try_update_float_reference_shift c.effective_time_seconds t sc dsc q c.scale_deltas

lemma Curve.try_update_opacity_shift (c : Curve) (t op dop q : ℚ) :
    c.try_update_opacity t (op + q) dop =
      (c.try_update_opacity t op dop).map (fun out => (out.1 + q, out.2)) :=
  try_update_float_reference_shift c.effective_time_seconds t op dop q c.opacity_deltas

lemma update_process_curve_shift (td now : ℚ) (s : RenderedInstance) (c : Curve)
    (csh : Vec3) (q1 q2 : ℚ) :
    update_process_curve td now (shift_scratch csh q1 q2 s) c =
      (update_process_curve td now s c).map (shift_scratch csh q1 q2) := by
  unfold update_process_curve shift_scratch
  dsimp only
  split_ifs with h1 h2 h3
  · rfl
  · cases c.try_update_position
        (get_calculated_time_delta c.start_datetime c.effective_time_seconds now td)
        s.position s.initial_position with
    | none => rfl
    | some outp =>
      dsimp only
      rw [Curve.try_update_rotation_shift]
      cases c.try_update_rotation
          (get_calculated_time_delta c.start_datetime c.effective_time_seconds now td)
          s.rotation s.initial_rotation with
      | none => rfl
      | some outr =>
        dsimp only
        rw [Curve.try_update_scale_shift]
        cases c.try_update_scale
            (get_calculated_time_delta c.start_datetime c.effective_time_seconds now td)
            s.scale s.initial_scale with
        | none => rfl
        | some outs =>
          dsimp only
          rw [Curve.try_update_opacity_shift]
          cases c.try_update_opacity
              (get_calculated_time_delta c.start_datetime c.effective_time_seconds now td)
              s.opacity s.initial_opacity with
          | none => rfl
          | some outo => rfl
  · rfl
  · rfl

lemma update_curves_loop_shift (td now : ℚ) (cs : List Curve) :
    ∀ (s : RenderedInstance) (csh : Vec3) (q1 q2 : ℚ),
      update_curves_loop td now (shift_scratch csh q1 q2 s) cs =
        (update_curves_loop td now s cs).map (shift_scratch csh q1 q2) := by
  induction cs with
  | nil => intro s csh q1 q2; rfl
  | cons c rest ih =>
    intro s csh q1 q2
    rw [update_curves_loop, update_curves_loop, update_process_curve_shift]
    cases update_process_curve td now s c with
    | none => rfl
    | some s2 =>
      dsimp only
      exact ih s2 csh q1 q2

lemma commit_curve_removal_shift (u : RenderedInstance) (c : Curve)
    (csh : Vec3) (q1 q2 : ℚ) :
    commit_curve_removal (shift_scratch csh q1 q2 u) c =
      shift_scratch csh q1 q2 (commit_curve_removal u c) := by
  unfold commit_curve_removal shift_scratch
  cases c.is_controller_event_triggered_on_completed <;>
    cases c.is_instance_removed_on_curve_completed <;> rfl

lemma foldl_commit_shift (l : List Curve) :
    ∀ (u : RenderedInstance) (csh : Vec3) (q1 q2 : ℚ),
      l.foldl commit_curve_removal (shift_scratch csh q1 q2 u) =
        shift_scratch csh q1 q2 (l.foldl commit_curve_removal u) := by
  induction l with
  | nil => intro u csh q1 q2; rfl
  | cons c rest ih =>
    intro u csh q1 q2
    rw [List.foldl_cons, List.foldl_cons, commit_curve_removal_shift]
    exact ih _ csh q1 q2

lemma Curve.try_update_position_eq (c : Curve) (t : ℚ) (v d : Vec3)
    (h : c.position_deltas.length ≤ 12) :
    c.try_update_position t v d =
      some (⟨v.x + taylor_sum (c.position_deltas.map Vec3.x) t,
             v.y + taylor_sum (c.position_deltas.map Vec3.y) t,
             v.z + taylor_sum (c.position_deltas.map Vec3.z) t⟩,
            if t = c.effective_time_seconds then
              ⟨d.x + taylor_sum (c.position_deltas.map Vec3.x) t,
               d.y + taylor_sum (c.position_deltas.map Vec3.y) t,
               d.z + taylor_sum (c.position_deltas.map Vec3.z) t⟩
            else d,
            decide (t = c.effective_time_seconds)) :=
  try_update_vector_eq c.effective_time_seconds t v d c.position_deltas h

lemma Curve.try_update_rotation_eq (c : Curve) (t : ℚ) (v d : Vec3)
    (h : c.rotation_deltas.length ≤ 12) :
    c.try_update_rotation t v d =
      some (⟨v.x + taylor_sum (c.rotation_deltas.map Vec3.x) t,
             v.y + taylor_sum (c.rotation_deltas.map Vec3.y) t,
             v.z + taylor_sum (c.rotation_deltas.map Vec3.z) t⟩,
            if t = c.effective_time_seconds then
              ⟨d.x + taylor_sum (c.rotation_deltas.map Vec3.x) t,
               d.y + taylor_sum (c.rotation_deltas.map Vec3.y) t,
               d.z + taylor_sum (c.rotation_deltas.map Vec3.z) t⟩
            else d,
            decide (t = c.effective_time_seconds)) :=
  try_update_vector_eq c.effective_time_seconds t v d c.rotation_deltas h

lemma Curve.try_update_scale_eq (c : Curve) (t a b : ℚ)
    (h : c.scale_deltas.length ≤ 12) :
    c.try_update_scale t a b =
      some (a + taylor_sum c.scale_deltas t,
            if t = c.effective_time_seconds then b + taylor_sum c.scale_deltas t else b,
            decide (t = c.effective_time_seconds)) :=
  try_update_float_reference_eq c.effective_time_seconds t a b c.scale_deltas h

lemma Curve.try_update_opacity_eq (c : Curve) (t a b : ℚ)
    (h : c.opacity_deltas.length ≤ 12) :
    c.try_update_opacity t a b =
      some (a + taylor_sum c.opacity_deltas t,
            if t = c.effective_time_seconds then b + taylor_sum c.opacity_deltas t else b,
            decide (t = c.effective_time_seconds)) :=
  try_update_float_reference_eq c.effective_time_seconds t a b c.opacity_deltas h

/-- Closed form of one full `RenderedInstance.update` call for an instance
holding a single started, non-completing curve: every channel's scratch
accumulator gains the closed-form contribution at the clamped elapsed time —
the position channel on top of its base value, the other three on top of their
previous scratch values — and the base accumulators are untouched. -/
lemma update_single_active_curve (s : RenderedInstance) (c : Curve) (td now : ℚ)
    (hc : s.inst.parallel_curves = [c])
    (hstage : s.to_remove_parallel_curves = [])
    (hstart : c.start_datetime ≤ now)
    (hp : c.position_deltas.length ≤ 12) (hr : c.rotation_deltas.length ≤ 12)
    (hsc : c.scale_deltas.length ≤ 12) (ho : c.opacity_deltas.length ≤ 12)
    (hnz : ¬ c.effective_time_seconds = 0)
    (hpos : 0 < get_calculated_time_delta c.start_datetime c.effective_time_seconds now td)
    (hneq : ¬ get_calculated_time_delta c.start_datetime c.effective_time_seconds now td
        = c.effective_time_seconds) :
    s.update td now = some { s with
      position := ⟨s.initial_position.x + taylor_sum (c.position_deltas.map Vec3.x)
          (get_calculated_time_delta c.start_datetime c.effective_time_seconds now td),
        s.initial_position.y + taylor_sum (c.position_deltas.map Vec3.y)
          (get_calculated_time_delta c.start_datetime c.effective_time_seconds now td),
        s.initial_position.z + taylor_sum (c.position_deltas.map Vec3.z)
          (get_calculated_time_delta c.start_datetime c.effective_time_seconds now td)⟩,
      rotation := ⟨s.rotation.x + taylor_sum (c.rotation_deltas.map Vec3.x)
          (get_calculated_time_delta c.start_datetime c.effective_time_seconds now td),
        s.rotation.y + taylor_sum (c.rotation_deltas.map Vec3.y)
          (get_calculated_time_delta c.start_datetime c.effective_time_seconds now td),
        s.rotation.z + taylor_sum (c.rotation_deltas.map Vec3.z)
          (get_calculated_time_delta c.start_datetime c.effective_time_seconds now td)⟩,
      scale := s.scale + taylor_sum c.scale_deltas
        (get_calculated_time_delta c.start_datetime c.effective_time_seconds now td),
      opacity := s.opacity + taylor_sum c.opacity_deltas
        (get_calculated_time_delta c.start_datetime c.effective_time_seconds now td) } := by
  have h1 : update_process_curve td now { s with position := s.initial_position } c =
      some { s with
        position := ⟨s.initial_position.x + taylor_sum (c.position_deltas.map Vec3.x)
            (get_calculated_time_delta c.start_datetime c.effective_time_seconds now td),
          s.initial_position.y + taylor_sum (c.position_deltas.map Vec3.y)
            (get_calculated_time_delta c.start_datetime c.effective_time_seconds now td),
          s.initial_position.z + taylor_sum (c.position_deltas.map Vec3.z)
            (get_calculated_time_delta c.start_datetime c.effective_time_seconds now td)⟩,
        rotation := ⟨s.rotation.x + taylor_sum (c.rotation_deltas.map Vec3.x)
            (get_calculated_time_delta c.start_datetime c.effective_time_seconds now td),
          s.rotation.y + taylor_sum (c.rotation_deltas.map Vec3.y)
            (get_calculated_time_delta c.start_datetime c.effective_time_seconds now td),
          s.rotation.z + taylor_sum (c.rotation_deltas.map Vec3.z)
            (get_calculated_time_delta c.start_datetime c.effective_time_seconds now td)⟩,
        scale := s.scale + taylor_sum c.scale_deltas
          (get_calculated_time_delta c.start_datetime c.effective_time_seconds now td),
        opacity := s.opacity + taylor_sum c.opacity_deltas
          (get_calculated_time_delta c.start_datetime c.effective_time_seconds now td) } := by
    unfold update_process_curve
    rw [if_pos hstart, if_neg hnz]
    dsimp only
    rw [if_pos hpos]
    rw [Curve.try_update_position_eq _ _ _ _ hp]
    dsimp only
    rw [Curve.try_update_rotation_eq _ _ _ _ hr]
    dsimp only
    rw [Curve.try_update_scale_eq _ _ _ _ hsc]
    dsimp only
    rw [Curve.try_update_opacity_eq _ _ _ _ ho]
    dsimp only
    simp only [if_neg hneq, decide_eq_false hneq, Bool.false_eq_true, if_false]
  have h2 : update_curves_loop td now { s with position := s.initial_position } [c] =
      some { s with
        position := ⟨s.initial_position.x + taylor_sum (c.position_deltas.map Vec3.x)
            (get_calculated_time_delta c.start_datetime c.effective_time_seconds now td),
          s.initial_position.y + taylor_sum (c.position_deltas.map Vec3.y)
            (get_calculated_time_delta c.start_datetime c.effective_time_seconds now td),
          s.initial_position.z + taylor_sum (c.position_deltas.map Vec3.z)
            (get_calculated_time_delta c.start_datetime c.effective_time_seconds now td)⟩,
        rotation := ⟨s.rotation.x + taylor_sum (c.rotation_deltas.map Vec3.x)
            (get_calculated_time_delta c.start_datetime c.effective_time_seconds now td),
          s.rotation.y + taylor_sum (c.rotation_deltas.map Vec3.y)
            (get_calculated_time_delta c.start_datetime c.effective_time_seconds now td),
          s.rotation.z + taylor_sum (c.rotation_deltas.map Vec3.z)
            (get_calculated_time_delta c.start_datetime c.effective_time_seconds now td)⟩,
        scale := s.scale + taylor_sum c.scale_deltas
          (get_calculated_time_delta c.start_datetime c.effective_time_seconds now td),
        opacity := s.opacity + taylor_sum c.opacity_deltas
          (get_calculated_time_delta c.start_datetime c.effective_time_seconds now td) } := by
    have e : update_curves_loop td now { s with position := s.initial_position } [c] =
        match update_process_curve td now { s with position := s.initial_position } c with
        | none => none
        | some s2 => update_curves_loop td now s2 [] := rfl
    rw [e, h1]
    rfl
  unfold RenderedInstance.update
  rw [hc, h2]
  dsimp only
  rw [if_pos hstage]

/-- A curve whose only effect is a constant rotation rate term. -/
def sample_rotation_curve : Curve where
  curve_uuid := "curve-r"
  position_deltas := []
  rotation_deltas := [⟨1, 0, 0⟩]
  scale_deltas := []
  opacity_deltas := []
  effective_time_seconds := 5
  is_controller_event_triggered_on_completed := false
  start_datetime := 0
  is_instance_removed_on_curve_completed := false
  restart_after_seconds := none

/-- An instance whose only curve is `sample_rotation_curve`. -/
def sample_rotation_instance : Instance where
  instance_uuid := "instance-r"
  payload := .model "model-1"
  parallel_curves := [sample_rotation_curve]
  client_event_types := []
  renderer_event_types := []
  owner_render_engine_uuid := "engine-1"
  parent_instance_uuid := none

/-- The rendered instance as left by the first update of
`sample_rotation_instance` (one second in): scratch rotation (1,0,0). -/
def sample_rotation_r1 : RenderedInstance where
  inst := sample_rotation_instance
  initial_position := ⟨0, 0, 0⟩
  position := ⟨0, 0, 0⟩
  initial_rotation := ⟨0, 0, 0⟩
  rotation := ⟨1, 0, 0⟩
  initial_scale := 0
  scale := 0
  initial_opacity := 0
  opacity := 0
  to_remove_parallel_curves := []
  completed_curve_uuids := []
  is_active_curve_completed_event := false
  is_active_instance_removed_event := false

/-- Same instance after the second update (two seconds in): scratch rotation
(2,0,0), base rotation still (0,0,0). -/
def sample_rotation_r2 : RenderedInstance where
  inst := sample_rotation_instance
  initial_position := ⟨0, 0, 0⟩
  position := ⟨0, 0, 0⟩
  initial_rotation := ⟨0, 0, 0⟩
  rotation := ⟨2, 0, 0⟩
  initial_scale := 0
  scale := 0
  initial_opacity := 0
  opacity := 0
  to_remove_parallel_curves := []
  completed_curve_uuids := []
  is_active_curve_completed_event := false
  is_active_instance_removed_event := false

/-- C4 counterexample: after two update calls (at one and two seconds into a
five-second rotation curve with the single constant term (1,0,0)) the rotation
scratch accumulator holds (2,0,0) while the rotation base accumulator is still
(0,0,0); a single evaluation of the curve at the second call's elapsed time
contributes exactly (1,0,0), so the scratch value is NOT base plus the
contributions of the curves evaluated during that call — the first call's
scratch state carried over. -/
theorem scratch_carry_over_counterexample :
    (((RenderedInstance.init sample_rotation_instance).update 0 1).bind
        (fun r1 => r1.update 0 2)).map
        (fun r => (r.rotation, r.initial_rotation)) =
      some (⟨2, 0, 0⟩, ⟨0, 0, 0⟩) ∧
    (sample_rotation_curve.try_update_rotation 2 ⟨0, 0, 0⟩ ⟨0, 0, 0⟩).map
        (fun out => out.1) = some ⟨1, 0, 0⟩ := by
  have h1 : (RenderedInstance.init sample_rotation_instance).update 0 1 =
      some sample_rotation_r1 := by
    rw [update_single_active_curve (RenderedInstance.init sample_rotation_instance)
      sample_rotation_curve 0 1 rfl rfl
      (by norm_num [sample_rotation_curve]) (by decide) (by decide) (by decide)
      (by decide) (by norm_num [sample_rotation_curve])
      (by norm_num [sample_rotation_curve, get_calculated_time_delta])
      (by norm_num [sample_rotation_curve, get_calculated_time_delta])]
    simp only [RenderedInstance.init, sample_rotation_r1, sample_rotation_curve,
      taylor_sum, sample_rotation_instance, List.map_cons, List.map_nil,
      List.length_cons, List.length_nil, Finset.sum_range_one,
      Finset.range_zero, Finset.sum_empty, List.getD_cons_zero,
      Option.some.injEq, RenderedInstance.mk.injEq, Vec3.mk.injEq,
      Nat.factorial]
    norm_num
  have h2 : sample_rotation_r1.update 0 2 = some sample_rotation_r2 := by
    rw [update_single_active_curve sample_rotation_r1
      sample_rotation_curve 0 2 rfl rfl
      (by norm_num [sample_rotation_curve]) (by decide) (by decide) (by decide)
      (by decide) (by norm_num [sample_rotation_curve])
      (by norm_num [sample_rotation_curve, get_calculated_time_delta])
      (by norm_num [sample_rotation_curve, get_calculated_time_delta])]
    simp only [sample_rotation_r1, sample_rotation_r2, sample_rotation_curve,
      taylor_sum, sample_rotation_instance, List.map_cons, List.map_nil,
      List.length_cons, List.length_nil, Finset.sum_range_one,
      Finset.range_zero, Finset.sum_empty, List.getD_cons_zero,
      Option.some.injEq, RenderedInstance.mk.injEq, Vec3.mk.injEq,
      Nat.factorial]
    norm_num
  constructor
  · rw [h1]
    dsimp only [Option.bind]
    rw [h2]
    dsimp only [Option.map]
    rfl
  · rw [Curve.try_update_rotation_eq _ _ _ _ (by decide)]
    dsimp only [Option.map]
    simp only [sample_rotation_curve, taylor_sum, List.map_cons, List.map_nil,
      List.length_cons, List.length_nil, Finset.sum_range_one,
      List.getD_cons_zero, Option.some.injEq, Vec3.mk.injEq, Nat.factorial]
    norm_num

/-- C4 amended: on every call to `RenderedInstance.update` only the position
scratch accumulator is recomputed from its base value — the result never
depends on the incoming scratch position `p` — while any offset already
present in the rotation, scale or opacity scratch accumulators is carried
over additively into the call's result for those channels. -/
theorem scratch_reset_only_position (s : RenderedInstance) (p csh : Vec3)
    (q1 q2 td now : ℚ) :
    RenderedInstance.update
        { s with position := p, rotation := s.rotation.add csh,
                 scale := s.scale + q1, opacity := s.opacity + q2 } td now =
      (s.update td now).map (shift_scratch csh q1 q2) := by
  show RenderedInstance.update (shift_scratch csh q1 q2 { s with position := p })
      td now = _
  unfold RenderedInstance.update
  show (match update_curves_loop td now
      (shift_scratch csh q1 q2 { s with position := s.initial_position })
      s.inst.parallel_curves with
    | none => none
    | some s1 =>
      if s1.to_remove_parallel_curves = [] then some s1
      else
        let s2 := s1.to_remove_parallel_curves.foldl commit_curve_removal s1
        some { s2 with to_remove_parallel_curves := [] }) = _
  rw [update_curves_loop_shift]
  cases update_curves_loop td now { s with position := s.initial_position }
      s.inst.parallel_curves with
  | none => rfl
  | some s1 =>
    dsimp only [Option.map]
    have hproj : (shift_scratch csh q1 q2 s1).to_remove_parallel_curves =
        s1.to_remove_parallel_curves := rfl
    rw [hproj]
    by_cases hempty : s1.to_remove_parallel_curves = []
    · rw [if_pos hempty, if_pos hempty]
    · rw [if_neg hempty, if_neg hempty]
      dsimp only
      rw [foldl_commit_shift]
      rfl

/-! Nothing in `RenderedInstance.update` ever writes to the
`completed_curve_uuids` buffer: the completion write goes to the separate
`is_active_curve_completed_event` attribute instead.  The following lemmas make
that observation precise. -/

lemma update_process_curve_completed (td now : ℚ) (s : RenderedInstance)
    (c : Curve) :
    ∀ r, update_process_curve td now s c = some r →
      r.completed_curve_uuids = s.completed_curve_uuids := by
  intro r h
  unfold update_process_curve at h
  dsimp only at h
  split_ifs at h with h1 h2 h3
  · injection h with hh
    subst hh
    rfl
  · cases hp : c.try_update_position
        (get_calculated_time_delta c.start_datetime c.effective_time_seconds now td)
        s.position s.initial_position with
    | none => rw [hp] at h; exact absurd h (by simp)
    | some outp =>
      obtain ⟨p1, p2, pf⟩ := outp
      rw [hp] at h
      dsimp only at h
      cases hr : c.try_update_rotation
          (get_calculated_time_delta c.start_datetime c.effective_time_seconds now td)
          s.rotation s.initial_rotation with
      | none => rw [hr] at h; exact absurd h (by simp)
      | some outr =>
        obtain ⟨r1, r2, rf⟩ := outr
        rw [hr] at h
        dsimp only at h
        cases hs : c.try_update_scale
            (get_calculated_time_delta c.start_datetime c.effective_time_seconds now td)
            s.scale s.initial_scale with
        | none => rw [hs] at h; exact absurd h (by simp)
        | some outs =>
          obtain ⟨s1, s2, sf⟩ := outs
          rw [hs] at h
          dsimp only at h
          cases ho : c.try_update_opacity
              (get_calculated_time_delta c.start_datetime c.effective_time_seconds now td)
              s.opacity s.initial_opacity with
          | none => rw [ho] at h; exact absurd h (by simp)
          | some outo =>
            obtain ⟨o1, o2, og⟩ := outo
            rw [ho] at h
            dsimp only at h
            injection h with hh
            subst hh
            rfl
  · injection h with hh
    subst hh
    rfl
  · injection h with hh
    subst hh
    rfl

lemma update_curves_loop_completed (td now : ℚ) (cs : List Curve) :
    ∀ s r, update_curves_loop td now s cs = some r →
      r.completed_curve_uuids = s.completed_curve_uuids := by
  induction cs with
  | nil =>
    intro s r h
    injection h with hh
    subst hh
    rfl
  | cons c rest ih =>
    intro s r h
    rw [update_curves_loop] at h
    cases hp : update_process_curve td now s c with
    | none => rw [hp] at h; exact absurd h (by simp)
    | some s2 =>
      rw [hp] at h
      dsimp only at h
      rw [ih s2 r h, update_process_curve_completed td now s c s2 hp]

lemma commit_curve_removal_completed (u : RenderedInstance) (c : Curve) :
    (commit_curve_removal u c).completed_curve_uuids = u.completed_curve_uuids := by
  unfold commit_curve_removal
  cases c.is_controller_event_triggered_on_completed <;>
    cases c.is_instance_removed_on_curve_completed <;> rfl

lemma foldl_commit_completed (l : List Curve) :
    ∀ u, (l.foldl commit_curve_removal u).completed_curve_uuids =
      u.completed_curve_uuids := by
  induction l with
  | nil => intro u; rfl
  | cons c rest ih =>
    intro u
    rw [List.foldl_cons, ih, commit_curve_removal_completed]

lemma update_completed (s : RenderedInstance) (td now : ℚ) :
    ∀ r, s.update td now = some r →
      r.completed_curve_uuids = s.completed_curve_uuids := by
  intro r h
  unfold RenderedInstance.update at h
  cases hl : update_curves_loop td now { s with position := s.initial_position }
      s.inst.parallel_curves with
  | none => rw [hl] at h; exact absurd h (by simp)
  | some s1 =>
    rw [hl] at h
    dsimp only at h
    have h1 : s1.completed_curve_uuids = s.completed_curve_uuids :=
      update_curves_loop_completed td now s.inst.parallel_curves
        { s with position := s.initial_position } s1 hl
    split_ifs at h with hemp
    · injection h with hh
      subst hh
      exact h1
    · injection h with hh
      subst hh
      show (s1.to_remove_parallel_curves.foldl commit_curve_removal
        s1).completed_curve_uuids = _
      rw [foldl_commit_completed]
      exact h1

lemma tick_update_one_snd (task_time utc_now : ℚ) (acc : EngineState × List String)
    (entry : String × RenderedInstance) (out : EngineState × List String)
    (hbuf : entry.2.completed_curve_uuids = [])
    (h : tick_update_one task_time utc_now acc entry = some out) :
    out.2 = acc.2 := by
  unfold tick_update_one at h
  cases hu : entry.2.update (task_time + 1) utc_now with
  | none => rw [hu] at h; exact absurd h (by simp)
  | some r1 =>
    rw [hu] at h
    have hc : r1.completed_curve_uuids = [] := by
      rw [update_completed entry.2 (task_time + 1) utc_now r1 hu]
      exact hbuf
    dsimp only [RenderedInstance.pop_completed_curve_uuids,
      RenderedInstance.pop_is_active_instance_removed_event] at h
    injection h with hh
    subst hh
    dsimp only
    rw [hc, List.append_nil]

lemma tick_instances_loop_snd (task_time utc_now : ℚ)
    (entries : List (String × RenderedInstance)) :
    ∀ (acc out : EngineState × List String),
      (∀ e ∈ entries, e.2.completed_curve_uuids = []) →
      tick_instances_loop task_time utc_now acc entries = some out →
      out.2 = acc.2 := by
  induction entries with
  | nil =>
    intro acc out _ h
    injection h with hh
    subst hh
    rfl
  | cons entry rest ih =>
    intro acc out hbuf h
    rw [tick_instances_loop] at h
    cases h1 : tick_update_one task_time utc_now acc entry with
    | none => rw [h1] at h; exact absurd h (by simp)
    | some acc2 =>
      rw [h1] at h
      dsimp only at h
      rw [ih acc2 out (fun e he => hbuf e (List.mem_cons_of_mem entry he)) h]
      exact tick_update_one_snd task_time utc_now acc entry acc2
        (hbuf entry (List.mem_cons_self entry rest)) h1

/-- C1 (failing part): the tick loop NEVER emits a `CurveCompletedEvent` —
whatever curves complete and whatever handlers are registered — because the
`completed_curve_uuids` buffer that the emission phase drains is never written
to by `update` (the completion write lands on the dead
`is_active_curve_completed_event` attribute instead).  The hypothesis states
the buffer invariant that holds for every rendered instance the engine ever
constructs (`RenderedInstance.init` starts it empty and nothing fills it). -/
theorem tick_emits_no_curve_completed_events (st : EngineState)
    (task_time utc_now : ℚ) (out : EngineState × List String)
    (hbuf : ∀ e ∈ st.rendered_instance_per_instance_uuid,
      e.2.completed_curve_uuids = [])
    (hrun : render_instance_update_task st task_time utc_now = some out) :
    out.2 = [] := by
  unfold render_instance_update_task at hrun
  cases hl : tick_instances_loop task_time utc_now (st, [])
      st.rendered_instance_per_instance_uuid with
  | none => rw [hl] at hrun; exact absurd hrun (by simp)
  | some acc1 =>
    obtain ⟨st1, completed⟩ := acc1
    rw [hl] at hrun
    dsimp only at hrun
    have hc : completed = [] :=
      tick_instances_loop_snd task_time utc_now
        st.rendered_instance_per_instance_uuid (st, []) (st1, completed) hbuf hl
    subst hc
    injection hrun with hh
    subst hh
    dsimp only
    split_ifs <;> rfl

/-- A zero-duration curve configured to trigger the CurveCompleted event. -/
def sample_c1_curve : Curve where
  curve_uuid := "curve-c1"
  position_deltas := []
  rotation_deltas := []
  scale_deltas := []
  opacity_deltas := []
  effective_time_seconds := 0
  is_controller_event_triggered_on_completed := true
  start_datetime := 0
  is_instance_removed_on_curve_completed := false
  restart_after_seconds := none

/-- An instance subscribed to CurveCompleted holding `sample_c1_curve`. -/
def sample_c1_instance : Instance where
  instance_uuid := "instance-c1"
  payload := .model "model-1"
  parallel_curves := [sample_c1_curve]
  client_event_types := [.CurveCompleted]
  renderer_event_types := []
  owner_render_engine_uuid := "engine-1"
  parent_instance_uuid := none

/-- An engine (client side) with a registered CurveCompleted handler and the
one instance above. -/
def sample_c1_state : EngineState where
  is_client := true
  handler_event_types := [.CurveCompleted]
  instance_per_instance_uuid := [("instance-c1", sample_c1_instance)]
  rendered_instance_per_instance_uuid :=
    [("instance-c1", RenderedInstance.init sample_c1_instance)]
  rendered_instances_per_event_type :=
    fun et => if et = .CurveCompleted then ["instance-c1"] else []
  to_remove_rendered_instance := []

/-- The rendered instance after the tick: curve removed, dead completion flag
raised, completed-uuids buffer still empty. -/
def sample_c1_rendered_after : RenderedInstance where
  inst := { sample_c1_instance with parallel_curves := [] }
  initial_position := ⟨0, 0, 0⟩
  position := ⟨0, 0, 0⟩
  initial_rotation := ⟨0, 0, 0⟩
  rotation := ⟨0, 0, 0⟩
  initial_scale := 0
  scale := 0
  initial_opacity := 0
  opacity := 0
  to_remove_parallel_curves := []
  completed_curve_uuids := []
  is_active_curve_completed_event := true
  is_active_instance_removed_event := false

/-- The full output of one tick on `sample_c1_state`: registries updated, no
event emitted. -/
def sample_c1_out : EngineState × List String :=
  ({ sample_c1_state with
      instance_per_instance_uuid :=
        [("instance-c1", { sample_c1_instance with parallel_curves := [] })],
      rendered_instance_per_instance_uuid :=
        [("instance-c1", sample_c1_rendered_after)] },
   [])

/-- Witness for C1: the tick on the concrete state completes the curve (its
event-trigger flag is set and it leaves the active set) yet emits nothing. -/
theorem tick_emits_no_curve_completed_events_witness :
    sample_c1_out.2 = [] :=
  tick_emits_no_curve_completed_events sample_c1_state 0 1 sample_c1_out
    (by decide) rfl

lemma alist_lookup_del_self {α : Type} (k : String) (l : List (String × α)) :
    alist_lookup k (alist_del k l) = none := by
  induction l with
  | nil => rfl
  | cons p rest ih =>
    obtain ⟨a, v⟩ := p
    rw [alist_del]
    by_cases h : a = k
    · rw [if_pos h]; exact ih
    · rw [if_neg h, alist_lookup, if_neg h]; exact ih

lemma alist_lookup_del_none {α : Type} (k k2 : String) (l : List (String × α))
    (h : alist_lookup k l = none) : alist_lookup k (alist_del k2 l) = none := by
  induction l with
  | nil => rfl
  | cons p rest ih =>
    obtain ⟨a, v⟩ := p
    rw [alist_lookup] at h
    by_cases hk : a = k
    · rw [if_pos hk] at h; exact absurd h (by simp)
    · rw [if_neg hk] at h
      rw [alist_del]
      by_cases hk2 : a = k2
      · rw [if_pos hk2]; exact ih h
      · rw [if_neg hk2, alist_lookup, if_neg hk]; exact ih h

lemma remove_from_buckets_sublist (instance_uuid : String)
    (subs : List EventTypeEnum) :
    ∀ (buckets : EventTypeEnum → List String) (et : EventTypeEnum),
      (remove_from_buckets instance_uuid buckets subs et).Sublist (buckets et) := by
  induction subs with
  | nil => intro buckets et; exact List.Sublist.refl _
  | cons et0 rest ih =>
    intro buckets et
    have step : remove_from_buckets instance_uuid buckets (et0 :: rest) =
        remove_from_buckets instance_uuid
          (fun e => if e = et0 then (buckets e).erase instance_uuid else buckets e)
          rest := rfl
    rw [step]
    refine (ih _ et).trans ?_
    by_cases he : et = et0
    · rw [if_pos he]; exact List.erase_sublist _ _
    · rw [if_neg he]

lemma remove_from_buckets_eq (instance_uuid : String) (subs : List EventTypeEnum)
    (hnd : subs.Nodup) :
    ∀ (buckets : EventTypeEnum → List String) (et : EventTypeEnum),
      remove_from_buckets instance_uuid buckets subs et =
        if et ∈ subs then (buckets et).erase instance_uuid else buckets et := by
  induction subs with
  | nil => intro buckets et; simp [remove_from_buckets]
  | cons et0 rest ih =>
    intro buckets et
    have hnotin : et0 ∉ rest := (List.nodup_cons.mp hnd).1
    have hndr : rest.Nodup := (List.nodup_cons.mp hnd).2
    have step : remove_from_buckets instance_uuid buckets (et0 :: rest) =
        remove_from_buckets instance_uuid
          (fun e => if e = et0 then (buckets e).erase instance_uuid else buckets e)
          rest := rfl
    rw [step, ih hndr]
    by_cases hmem : et ∈ rest
    · have hne : et ≠ et0 := fun he => hnotin (he ▸ hmem)
      rw [if_pos hmem, if_pos (List.mem_cons_of_mem et0 hmem), if_neg hne]
    · rw [if_neg hmem]
      by_cases he : et = et0
      · rw [if_pos he, if_pos (by rw [he]; exact List.mem_cons_self et0 rest)]
      · have hnc : et ∉ et0 :: rest := by
          intro hc
          rcases List.mem_cons.mp hc with h | h
          · exact he h
          · exact hmem h
        rw [if_neg he, if_neg hnc]

/-- The absence of one instance uuid from every collection of the engine state:
both registries and every event-type bucket. -/
def EngineState.absent (st : EngineState) (instance_uuid : String) : Prop :=
  alist_lookup instance_uuid st.instance_per_instance_uuid = none ∧
  alist_lookup instance_uuid st.rendered_instance_per_instance_uuid = none ∧
  ∀ et, instance_uuid ∉ st.rendered_instances_per_event_type et

lemma remove_rendered_instance_absent_self (st : EngineState)
    (r : RenderedInstance)
    (hnd : (subscribed_event_types st.is_client r.inst).Nodup)
    (hbn : ∀ et, (st.rendered_instances_per_event_type et).Nodup)
    (hinv : ∀ et, r.inst.instance_uuid ∈ st.rendered_instances_per_event_type et →
      et ∈ subscribed_event_types st.is_client r.inst) :
    (st.remove_rendered_instance r).absent r.inst.instance_uuid := by
  refine ⟨alist_lookup_del_self _ _, alist_lookup_del_self _ _, ?_⟩
  intro et
  show r.inst.instance_uuid ∉ remove_from_buckets r.inst.instance_uuid
    st.rendered_instances_per_event_type
    (subscribed_event_types st.is_client r.inst) et
  rw [remove_from_buckets_eq _ _ hnd]
  split_ifs with hmem
  · intro hc
    exact absurd (((hbn et).mem_erase_iff).mp hc).1 (by simp)
  · intro hc
    exact hmem (hinv et hc)

lemma remove_rendered_instance_preserves_absent (st : EngineState)
    (r : RenderedInstance) (u : String) (h : st.absent u) :
    (st.remove_rendered_instance r).absent u :=
  ⟨alist_lookup_del_none _ _ _ h.1, alist_lookup_del_none _ _ _ h.2.1,
   fun et hc => h.2.2 et ((remove_from_buckets_sublist _ _ _ et).subset hc)⟩

lemma foldl_remove_preserves_absent (l : List RenderedInstance) :
    ∀ (st : EngineState) (u : String), st.absent u →
      (l.foldl EngineState.remove_rendered_instance st).absent u := by
  induction l with
  | nil => intro st u h; exact h
  | cons r0 rest ih =>
    intro st u h
    rw [List.foldl_cons]
    exact ih _ u (remove_rendered_instance_preserves_absent st r0 u h)

lemma foldl_remove_absent (l : List RenderedInstance) :
    ∀ (st : EngineState),
      (∀ et, (st.rendered_instances_per_event_type et).Nodup) →
      (∀ r ∈ l, (subscribed_event_types st.is_client r.inst).Nodup) →
      (∀ r ∈ l, ∀ et,
        r.inst.instance_uuid ∈ st.rendered_instances_per_event_type et →
          et ∈ subscribed_event_types st.is_client r.inst) →
      ∀ r ∈ l, (l.foldl EngineState.remove_rendered_instance st).absent
        r.inst.instance_uuid := by
  induction l with
  | nil => intro st _ _ _ r hr; cases hr
  | cons r0 rest ih =>
    intro st hbn hnd hinv r hr
    rw [List.foldl_cons]
    have hbn1 : ∀ et,
        ((st.remove_rendered_instance r0).rendered_instances_per_event_type
          et).Nodup :=
      fun et => (hbn et).sublist (remove_from_buckets_sublist _ _ _ et)
    rcases List.mem_cons.mp hr with rfl | hr2
    · exact foldl_remove_preserves_absent rest _ _
        (remove_rendered_instance_absent_self st r
          (hnd r (List.mem_cons_self r rest)) hbn
          (hinv r (List.mem_cons_self r rest)))
    · exact ih (st.remove_rendered_instance r0) hbn1
        (fun r2 h2 => hnd r2 (List.mem_cons_of_mem r0 h2))
        (fun r2 h2 et hmem => hinv r2 (List.mem_cons_of_mem r0 h2) et
          ((remove_from_buckets_sublist _ _ _ et).subset hmem))
        r hr2

/-- C9: after the removal-commit phase, every instance flagged for removal is
absent from the instance registry, the rendered-instance registry and every
event-type bucket, so enumerating subscribers of any event type never yields a
removed instance.  Hypotheses: buckets are sets (no duplicates), subscription
lists have no duplicate event types, and — as `render_instances` guarantees —
an instance sits only in buckets of event types it subscribes to. -/
theorem removal_commit_no_dangling (st : EngineState)
    (hbn : ∀ et, (st.rendered_instances_per_event_type et).Nodup)
    (hnd : ∀ r ∈ st.to_remove_rendered_instance,
      (subscribed_event_types st.is_client r.inst).Nodup)
    (hinv : ∀ r ∈ st.to_remove_rendered_instance, ∀ et,
      r.inst.instance_uuid ∈ st.rendered_instances_per_event_type et →
        et ∈ subscribed_event_types st.is_client r.inst) :
    ∀ r ∈ st.to_remove_rendered_instance,
      st.commit_removals.absent r.inst.instance_uuid := by
  intro r hr
  unfold EngineState.commit_removals
  rw [if_neg (List.ne_nil_of_mem hr)]
  exact foldl_remove_absent st.to_remove_rendered_instance st hbn hnd hinv r hr

/-- An instance subscribed (client side) to MouseMoved. -/
def sample_c9_instance : Instance where
  instance_uuid := "instance-9"
  payload := .model "model-1"
  parallel_curves := []
  client_event_types := [.MouseMoved]
  renderer_event_types := []
  owner_render_engine_uuid := "engine-1"
  parent_instance_uuid := none

/-- An engine state in which `sample_c9_instance` is registered, indexed under
MouseMoved, and flagged for removal. -/
def sample_c9_state : EngineState where
  is_client := true
  handler_event_types := []
  instance_per_instance_uuid := [("instance-9", sample_c9_instance)]
  rendered_instance_per_instance_uuid :=
    [("instance-9", RenderedInstance.init sample_c9_instance)]
  rendered_instances_per_event_type :=
    fun et => if et = .MouseMoved then ["instance-9"] else []
  to_remove_rendered_instance := [RenderedInstance.init sample_c9_instance]

/-- Witness for C9 at the concrete one-instance engine state. -/
theorem removal_commit_no_dangling_witness :
    sample_c9_state.commit_removals.absent
      (RenderedInstance.init sample_c9_instance).inst.instance_uuid :=
  removal_commit_no_dangling sample_c9_state (by decide) (by decide) (by decide)
    (RenderedInstance.init sample_c9_instance) (by decide)

end GameRenderEngine
